import Mathlib

/-!
Verification development for the `metric_sam3d` repository: a shallow
embedding, in Lean 4, of the observable behaviour of its Python scripts
(`metric_sam3d_api.py`, `generate_meshes.py`,
`prepare_data_for_registration.py`, `visualization.py`), together with
theorems settling the specification claims about them.

Conventions of the embedding:
* images are lists of rows of pixels (`List (List _)`), pixel values are `Nat`;
* the file system effects of a Python function are modelled as the list of
  (file name, content) pairs it writes;
* fallible Python code returns `Option`/`Except`;
* external effects the scripts merely trigger (the subprocess, the inference
  model, the renderers) are recorded as explicit call records, not executed.
-/

namespace MetricSam3d

/-! ## `metric_sam3d_api.py` — the FastAPI service -/

/-- An HTTP route registered on the FastAPI `app`: its method, its path, and
whether its handler shells out to the pipeline script via `subprocess.run`. -/
structure Route where
  method : String
  path : String
  shellsOut : Bool
deriving DecidableEq, Repr

/-- The `POST /metric_sam3d/` route (decorator at line 55); its handler runs
`subprocess.run` on the pipeline script. -/
def metricSam3dRoute : Route := { method := "POST", path := "/metric_sam3d/", shellsOut := true }

/-- The `GET /health` route (decorator at line 178); its handler returns a
static status object and spawns no subprocess. -/
def healthRoute : Route := { method := "GET", path := "/health", shellsOut := false }

/-- All routes registered on the FastAPI `app` in `metric_sam3d_api.py`, in
source order: the `metric_sam3d` endpoint and the `health_check` endpoint. -/
def appRoutes : List Route := [metricSam3dRoute, healthRoute]

/-- Absolute path of the pipeline script (module-level constant
`PIPELINE_SCRIPT`). -/
def PIPELINE_SCRIPT : String := "/home/aditya/research/maggie/metric_sam3d/metric_sam3d_pipeline.sh"

/-- A `subprocess.run` invocation: argument vector and `timeout=` keyword
(in seconds). -/
structure SubprocessCall where
  args : List String
  timeoutSeconds : Nat
deriving DecidableEq, Repr

/-- Outcome of the subprocess from the handler's point of view: either
`subprocess.TimeoutExpired` was raised, or the process completed with a
return code and captured output. -/
inductive RunOutcome where
  | timeout : RunOutcome
  | completed (returncode : Int) (stdout stderr : String) : RunOutcome
deriving DecidableEq, Repr

/-- The kind of FastAPI response object the handler returns. -/
inductive RespKind where
  | json : RespKind
  | file : RespKind
deriving DecidableEq, Repr

/-- A response from the endpoint: HTTP status, response kind, and the error
message (for `JSONResponse` bodies of the form `{"error": ...}`) or the
download filename (for `FileResponse`). -/
structure ApiResponse where
  status : Nat
  kind : RespKind
  body : String
deriving DecidableEq, Repr

/-- A directory entry seen by `os.listdir(experiment_dir)` after extraction:
its name and whether `osp.isdir` holds for it. -/
structure Item where
  name : String
  isDir : Bool
deriving DecidableEq, Repr

/-- What the upload-normalisation code (lines 94–112) does to the extracted
items, relative to the fixed `capture` directory path. -/
inductive NormalizeResult where
  /-- a single extracted directory was `shutil.move`d to `capture` -/
  | renamed (origName : String) : NormalizeResult
  /-- a single extracted directory was already at the `capture` path -/
  | kept : NormalizeResult
  /-- `capture/` was created and the listed items were moved into it -/
  | gathered (moved : List String) : NormalizeResult
deriving DecidableEq, Repr

/-- The branch on `extracted_items` (lines 100–112): a single extracted
directory is renamed to `capture` (unless it already is `capture`);
otherwise `capture/` is created and every item whose path differs from the
`capture` path (`if src != capture_dir`) is moved into it. -/
def normalizeExtracted : List Item → NormalizeResult
  | [it] =>
      if it.isDir then
        if it.name = "capture" then .kept else .renamed it.name
      else
        .gathered (((([it] : List Item)).filter (fun i => i.name ≠ "capture")).map Item.name)
  | other => .gathered ((other.filter (fun i => i.name ≠ "capture")).map Item.name)

/-- Upload-layout normalisation, lines 94–112 of `metric_sam3d_api.py`:
`extracted_items` is the experiment-directory listing with `capture.zip`
dropped (line 98), and is then normalised by `normalizeExtracted`. -/
def normalizeCapture (items : List Item) : NormalizeResult :=
  normalizeExtracted (items.filter (fun i => i.name ≠ "capture.zip"))

/-- The abstract request environment of one call to the `metric_sam3d`
handler: everything the handler's control flow branches on. `valid` and
`vmessage` are the result of `validate_capture_folder` on the normalised
capture directory; `outcome` is what `subprocess.run` does if reached;
`resultsExist` is whether `output/results` exists afterwards. -/
structure ApiEnv where
  items : List Item
  valid : Bool
  vmessage : String
  outcome : RunOutcome
  resultsExist : Bool
  device : String
  experimentId : String
deriving Repr

/-- Path of the capture directory inside the experiment directory. -/
def captureDirPath (env : ApiEnv) : String :=
  env.experimentId ++ "/capture"

/-- Path of the output directory inside the experiment directory. -/
def outputDirPath (env : ApiEnv) : String :=
  env.experimentId ++ "/output"

/-- The `metric_sam3d` handler, lines 55–175 of `metric_sam3d_api.py`, as a
function from the request environment to the response together with the list
of `subprocess.run` calls it performed. Extraction and normalisation happen
first (their effect on the later file reads is summarised by `env.valid`);
a failed validation returns 400 with no subprocess call; otherwise exactly
one `subprocess.run` with `timeout=1800` is issued and the response is
504 on `TimeoutExpired`, 500 on a nonzero return code or a missing results
directory, and a 200 `FileResponse` otherwise. -/
def metric_sam3d_handler (env : ApiEnv) : ApiResponse × List SubprocessCall :=
  if env.valid = false then
    ({ status := 400, kind := .json, body := env.vmessage }, [])
  else
    let call : SubprocessCall :=
      { args := ["bash", PIPELINE_SCRIPT, "--device", env.device,
                 captureDirPath env, outputDirPath env],
        timeoutSeconds := 1800 }
    match env.outcome with
    | .timeout =>
        ({ status := 504, kind := .json, body := "Pipeline timed out after 30 minutes" }, [call])
    | .completed rc _ _ =>
        if rc ≠ 0 then
          ({ status := 500, kind := .json, body := "Pipeline failed" }, [call])
        else if env.resultsExist = false then
          ({ status := 500, kind := .json,
             body := "Pipeline completed but no results directory found" }, [call])
        else
          ({ status := 200, kind := .file,
             body := "metric_sam3d_" ++ env.experimentId ++ ".zip" }, [call])

/-- The path the handler validates (line 115): always the fixed
`capture` directory of the experiment, in both normalisation cases. -/
def validatedPath (env : ApiEnv) : String := captureDirPath env

/-! ## `generate_meshes.py` — masking and per-mask inference -/

/-- An RGBA pixel; channels are 8-bit values modelled as `Nat`. -/
structure Pix where
  r : Nat
  g : Nat
  b : Nat
  a : Nat
deriving DecidableEq, Repr

/-- An RGB pixel as loaded from `rgb.png` before `convert("RGBA")`. -/
structure RGB where
  r : Nat
  g : Nat
  b : Nat
deriving DecidableEq, Repr

/-- `Image.convert("RGBA")` on an RGB pixel: the colour channels are kept and
a fully opaque alpha of 255 is added. -/
def convertRGBA (p : RGB) : Pix := { r := p.r, g := p.g, b := p.b, a := 255 }

/-- An image is a list of rows of pixels. -/
abbrev Image3 := List (List RGB)

/-- A grayscale image (`convert("L")` output or a depth map): rows of values. -/
abbrev ImageG := List (List Nat)

/-- `img.putalpha(mask_bw)` on an RGBA image: every pixel's alpha channel is
replaced by the mask's grayscale value at that position; the colour channels
are untouched. -/
def putalpha (img : List (List Pix)) (mask : ImageG) : List (List Pix) :=
  List.zipWith (fun row mrow => List.zipWith (fun p m => { p with a := m }) row mrow) img mask

/-- The masked image saved as `masked_image_{id}.png` (lines 44–53): the RGB
scene image converted to RGBA, with the grayscale mask installed as its alpha
channel. -/
def maskedImage (img : List (List RGB)) (mask : ImageG) : List (List Pix) :=
  putalpha (img.map (fun row => row.map convertRGBA)) mask

/-- One call into the pretrained model `model(image, mask, seed=42)`: the
image path, the mask (the saved masked image) path, and the seed. -/
structure InferenceCall where
  imagePath : String
  maskPath : String
  seed : Nat
deriving DecidableEq, Repr

/-- The names of files written to the output folder for mask index `idx`:
the masked image, the Gaussian-splat point cloud, and the textured mesh. -/
def outputsForMask (idx : Nat) : List String :=
  ["masked_image_" ++ toString idx ++ ".png",
   toString idx ++ ".ply",
   toString idx ++ ".obj"]

/-- `generate_meshes`, lines 35–73 of `generate_meshes.py`, restricted to its
observable effects: for each mask (by enumeration index) it writes
`masked_image_{i}.png`, `{i}.ply` and `{i}.obj`, and performs one inference
call `model(image, mask, seed=42)` whose mask argument is the saved masked
image. Returns (files written, inference calls), in loop order. -/
def generate_meshes (maskPaths : List String) : List String × List InferenceCall :=
  let indexed := maskPaths.enum
  (indexed.flatMap (fun p => outputsForMask p.fst),
   indexed.map (fun p =>
     { imagePath := "rgb.png",
       maskPath := "masked_image_" ++ toString p.fst ++ ".png",
       seed := 42 }))

/-! ## `prepare_data_for_registration.py` — file layout for SceneComplete -/

/-- The JSON object written to `cam_K.json` (and to `{id}_rgba.json`):
image width, image height, and the row-major flattening of the intrinsics
matrix. The matrix entries are kept abstract in `α` (numpy floats in the
source). -/
structure CamKJson (α : Type) where
  width : Nat
  height : Nat
  intrinsic_matrix : List α
deriving Repr

/-- The lines of `cam_K.txt` (lines 38–40): one line per matrix row, each the
space-separated `str` renderings of that row's entries. -/
def camKTxtLines {α : Type} (render : α → String) (intrinsics : List (List α)) : List String :=
  intrinsics.map (fun row => String.intercalate " " (row.map render))

/-- The JSON written by `convert_intrinsics` (lines 43–56): width and height
from the RGB image, `intrinsic_matrix` = `intrinsics.flatten().tolist()`,
numpy's row-major flattening. -/
def camKJsonOf {α : Type} (width height : Nat) (intrinsics : List (List α)) : CamKJson α :=
  { width := width, height := height, intrinsic_matrix := intrinsics.flatten }

/-- `masked_rgb[mask == 0] = 0` (line 86): each RGB pixel is blacked out
where the mask value is 0 and kept unchanged elsewhere. -/
def maskOutRGB (rgb : List (List RGB)) (mask : ImageG) : List (List RGB) :=
  List.zipWith (fun row mrow =>
    List.zipWith (fun p m => if m = 0 then { r := 0, g := 0, b := 0 } else p) row mrow) rgb mask

/-- `masked_depth[mask == 0] = 0` (line 93): each depth value is zeroed where
the mask value is 0 and kept unchanged elsewhere. -/
def maskOutDepth (depth : ImageG) (mask : ImageG) : ImageG :=
  List.zipWith (fun row mrow =>
    List.zipWith (fun d m => if m = 0 then 0 else d) row mrow) depth mask

/-- Content of a file written by the preparation script, abstracted to what
the claims distinguish. -/
inductive PrepContent (α : Type) where
  /-- a grayscale image written via `cv2.imwrite` -/
  | gray (data : ImageG) : PrepContent α
  /-- a colour image written via `cv2.imwrite` -/
  | rgb (data : List (List RGB)) : PrepContent α
  /-- a byte-for-byte `shutil.copy` of the named source file -/
  | copyOf (srcPath : String) : PrepContent α
  /-- an intrinsics JSON object written via `json.dump` -/
  | intrinsicsJson (j : CamKJson α) : PrepContent α
  /-- an offscreen render produced by pyrender (opaque to the claims) -/
  | rendered : PrepContent α

/-- A file written by the preparation script: destination directory name,
file name, and content. -/
structure PrepFile (α : Type) where
  dir : String
  name : String
  content : PrepContent α

/-- `prepare_grasp_data`, lines 60–95, restricted to the per-object files
(the two scene-wide copies, written only once, are guarded by existence
checks and not part of the per-object layout): writes into `grasp_data/`
the mask as `{id}_mask.png`, the masked RGB `{id}_masked.png` (scene RGB
zeroed where the mask is 0), and the masked depth `{id}_depth.png` (scene
depth zeroed where the mask is 0). -/
def prepare_grasp_data {α : Type} (object_id : String)
    (rgb : List (List RGB)) (depth : ImageG) (mask : ImageG) : List (PrepFile α) :=
  [ { dir := "grasp_data", name := object_id ++ "_mask.png", content := .gray mask },
    { dir := "grasp_data", name := object_id ++ "_masked.png",
      content := .rgb (maskOutRGB rgb mask) },
    { dir := "grasp_data", name := object_id ++ "_depth.png",
      content := .gray (maskOutDepth depth mask) } ]

/-- `render_mesh`, lines 147–253: with pyrender importable it writes the
offscreen colour render `{id}_rgba.png`, the 16-bit depth render
`{id}_rgba_depth.png` and the intrinsics JSON `{id}_rgba.json` into
`videos/`; on `ImportError` it instead copies the object's masked RGB and
masked depth from `grasp_data/` as placeholders, and still writes the same
intrinsics JSON. -/
def render_mesh {α : Type} (pyrenderAvailable : Bool) (object_id : String)
    (width height : Nat) (intrinsics : List (List α)) : List (PrepFile α) :=
  if pyrenderAvailable then
    [ { dir := "videos", name := object_id ++ "_rgba.png", content := .rendered },
      { dir := "videos", name := object_id ++ "_rgba_depth.png", content := .rendered },
      { dir := "videos", name := object_id ++ "_rgba.json",
        content := .intrinsicsJson (camKJsonOf width height intrinsics) } ]
  else
    [ { dir := "videos", name := object_id ++ "_rgba.png",
        content := .copyOf ("grasp_data/" ++ object_id ++ "_masked.png") },
      { dir := "videos", name := object_id ++ "_rgba_depth.png",
        content := .copyOf ("grasp_data/" ++ object_id ++ "_depth.png") },
      { dir := "videos", name := object_id ++ "_rgba.json",
        content := .intrinsicsJson (camKJsonOf width height intrinsics) } ]

/-- `prepare_mesh_outputs`, lines 97–145, restricted to its unconditional
per-object writes: the mesh `{id}.obj` copied into `meshes/` as
`{id}_rgba.obj`, the renders from `render_mesh`, and the placeholder
`images/{id}_rgba.png` copied from the scene RGB. The conditional `.mtl`,
texture and `.glb` copies depend on files of the inference output and are
outside the claims. Raises `FileNotFoundError` (modelled as `none`) when the
mesh file is missing. -/
def prepare_mesh_outputs {α : Type} (pyrenderAvailable : Bool) (object_id : String)
    (meshObjPath : String) (meshExists : Bool)
    (width height : Nat) (intrinsics : List (List α)) : Option (List (PrepFile α)) :=
  if meshExists = false then
    none
  else
    some
      ({ dir := "meshes", name := object_id ++ "_rgba.obj",
         content := PrepContent.copyOf meshObjPath } ::
       render_mesh pyrenderAvailable object_id width height intrinsics ++
       [ { dir := "images", name := object_id ++ "_rgba.png",
           content := PrepContent.copyOf "rgb.png" } ])

/-- The per-object processing of `main` (lines 296–314): skip the object if
`mask_{id}.png` is missing; otherwise run `prepare_grasp_data` and
`prepare_mesh_outputs` and write all their files. -/
def processObject {α : Type} (pyrenderAvailable : Bool) (object_id : String)
    (maskExists : Bool) (meshExists : Bool)
    (rgb : List (List RGB)) (depth : ImageG) (mask : ImageG)
    (width height : Nat) (intrinsics : List (List α)) : Option (List (PrepFile α)) :=
  if maskExists = false then
    some []
  else
    match prepare_mesh_outputs pyrenderAvailable object_id (object_id ++ ".obj") meshExists
        width height intrinsics with
    | none => none
    | some meshFiles => some (prepare_grasp_data object_id rgb depth mask ++ meshFiles)

/-! ## `visualization.py` — mode dispatch and mesh loading -/

/-- The three visualization call paths of `visualization.py`:
`visualize_scene_with_objects` (interactive Open3D viewer),
`visualize_objs_scene_pcd` (meshes plus scene point cloud via Open3D), and
`visualize_colored_meshes` (colored meshes via trimesh). -/
inductive VisPath where
  | interactive : VisPath
  | pcd : VisPath
  | colored : VisPath
deriving DecidableEq, Repr

/-- The argparse `choices` of the `--mode` argument (lines 142–148). -/
def modeChoices : List String := ["all", "colored", "pcd", "interactive"]

/-- The dispatch at the bottom of `main` (lines 163–175): which visualization
paths run for a given `--mode` value, in call order. -/
def dispatchMode (mode : String) : List VisPath :=
  if mode = "all" then [.interactive, .pcd, .colored]
  else if mode = "colored" then [.colored]
  else if mode = "pcd" then [.pcd]
  else if mode = "interactive" then [.interactive]
  else []

/-- Inclusive code-point ranges of the characters Python treats as
whitespace (`Py_UNICODE_ISSPACE`), which `int()` strips from both ends of
its string argument: the ASCII control whitespace and separators
(U+0009–U+000D, U+001C–U+0020), next line (U+0085), no-break space
(U+00A0), Ogham space mark (U+1680), the Unicode space characters
U+2000–U+200A, the line and paragraph separators (U+2028–U+2029), and the
narrow, mathematical and ideographic spaces (U+202F, U+205F, U+3000), as
enumerated from CPython's character tables. -/
def pySpaceRanges : List (Nat × Nat) :=
  [(0x9, 0xD), (0x1C, 0x20), (0x85, 0x85), (0xA0, 0xA0), (0x1680, 0x1680),
   (0x2000, 0x200A), (0x2028, 0x2029), (0x202F, 0x202F), (0x205F, 0x205F),
   (0x3000, 0x3000)]

/-- Whether Python's `int()` treats a character as strippable whitespace. -/
def isPySpace (c : Char) : Bool :=
  pySpaceRanges.any (fun r => decide (r.1 ≤ c.toNat) && decide (c.toNat ≤ r.2))

/-- Start code points of the Unicode decimal-digit runs (category Nd; each
is a contiguous run of the digits 0–9) that Python's `int()` converts to
their digit values (`Py_UNICODE_TODECIMAL`), enumerated from CPython's
`unicodedata` tables: ASCII, Arabic-Indic, the Indic scripts, Thai, Lao,
Tibetan, Myanmar, fullwidth forms, the mathematical digit variants, and
the remaining Nd blocks. -/
def pyDigitRunStarts : List Nat :=
  [0x30, 0x660, 0x6F0, 0x7C0, 0x966, 0x9E6, 0xA66, 0xAE6, 0xB66, 0xBE6,
   0xC66, 0xCE6, 0xD66, 0xDE6, 0xE50, 0xED0, 0xF20, 0x1040, 0x1090, 0x17E0,
   0x1810, 0x1946, 0x19D0, 0x1A80, 0x1A90, 0x1B50, 0x1BB0, 0x1C40, 0x1C50,
   0xA620, 0xA8D0, 0xA900, 0xA9D0, 0xA9F0, 0xAA50, 0xABF0, 0xFF10, 0x104A0,
   0x10D30, 0x11066, 0x110F0, 0x11136, 0x111D0, 0x112F0, 0x11450, 0x114D0,
   0x11650, 0x116C0, 0x11730, 0x118E0, 0x11950, 0x11C50, 0x11D50, 0x11DA0,
   0x16A60, 0x16AC0, 0x16B50, 0x1D7CE, 0x1D7D8, 0x1D7E2, 0x1D7EC, 0x1D7F6,
   0x1E140, 0x1E2F0, 0x1E950, 0x1FBF0]

/-- The decimal value Python's `int()` assigns to a character, when the
character is a Unicode decimal digit; `none` otherwise. -/
def pyDigitVal (c : Char) : Option Nat :=
  (pyDigitRunStarts.find? (fun s => decide (s ≤ c.toNat) && decide (c.toNat ≤ s + 9))).map
    (fun s => c.toNat - s)

/-- The digit tail of `int()`'s base-10 grammar after the first digit:
further digits among which a single underscore may stand between two
digits (`digit (["_"] digit)*`), accumulating the value most significant
first. A trailing, doubled, or non-digit-adjacent underscore fails. -/
def pyDigitsAux : Nat → List Char → Option Nat
  | acc, [] => some acc
  | acc, '_' :: c :: rest =>
      match pyDigitVal c with
      | some d => pyDigitsAux (10 * acc + d) rest
      | none => none
  | _, ['_'] => none
  | acc, c :: rest =>
      match pyDigitVal c with
      | some d => pyDigitsAux (10 * acc + d) rest
      | none => none

/-- The digits part of `int()`'s grammar: it must begin with a decimal
digit (in particular an underscore may not directly follow the sign), then
`pyDigitsAux` parses the rest. -/
def pyParseDigits : List Char → Option Nat
  | c :: rest =>
      match pyDigitVal c with
      | some d => pyDigitsAux d rest
      | none => none
  | [] => none

/-- Python's builtin `int` applied to a string, as the sort key of
`load_obj_files` uses it: Unicode whitespace is stripped from both ends,
then an optional `+`/`-` sign must be followed directly by a nonempty run
of Unicode decimal digits in which single underscores may stand between
digits; anything else raises `ValueError` (`none`). This mirrors CPython's
base-10 string conversion (`_PyUnicode_TransformDecimalAndSpaceToASCII`
followed by `_PyLong_FromString`); see `pyInt_matches_python` for its
behaviour on the edge cases. -/
def pyInt (s : String) : Option Int :=
  let trimmed := ((s.data.dropWhile isPySpace).reverse.dropWhile isPySpace).reverse
  let signed : Int × List Char :=
    match trimmed with
    | '-' :: rest => (-1, rest)
    | '+' :: rest => (1, rest)
    | cs => (1, cs)
  (pyParseDigits signed.2).map (fun n => signed.1 * (n : Int))

/-- Python's `str.endswith(suffix)`: suffix test on the character sequence
(Python strings are sequences of characters, as is `String.data`). -/
def pyEndsWith (s suffix : String) : Bool := suffix.data.isSuffixOf s.data

/-- `os.path.splitext(basename)[0]` for a file name ending in `.obj`: the
name with its final 4-character `.obj` extension removed. -/
def stemOf (s : String) : String := String.mk (s.data.take (s.data.length - 4))

/-- Stable insertion of a keyed element into a keyed list: the element passes
over strictly smaller keys and stops before the first strictly larger key,
landing after any equal keys — the order Python's stable sort produces. -/
def insertByKey (x : Int × String) : List (Int × String) → List (Int × String)
  | [] => [x]
  | y :: ys => if x.1 < y.1 then x :: y :: ys else y :: insertByKey x ys

/-- Stable sort of keyed elements in ascending key order, modelling
`list.sort(key=...)` after the keys have been computed. -/
def sortByKey (l : List (Int × String)) : List (Int × String) :=
  l.foldr insertByKey []

/-- Compute `f` over a list, failing (as the first raised exception would)
if it fails anywhere — the decoration step of `list.sort(key=...)`. -/
def mapKeys {α β : Type} (f : α → Option β) : List α → Option (List β)
  | [] => some []
  | x :: xs =>
      match f x, mapKeys f xs with
      | some y, some ys => some (y :: ys)
      | _, _ => none

/-- `load_obj_files`, lines 16–34 of `visualization.py`: from the directory
listing it keeps the names ending in `.obj`, joins them onto the folder
path, and sorts them by `int` of the file-name stem; a stem that `int`
rejects raises `ValueError` (modelled as `Except.error ()`). `listing`
holds plain file names (no slashes), so `os.path.basename` of the joined
path is the name itself. -/
def load_obj_files (folder : String) (listing : List String) : Except Unit (List String) :=
  let objNames := listing.filter (fun f => pyEndsWith f ".obj")
  match mapKeys (fun f => (pyInt (stemOf f)).map (fun k => (k, folder ++ "/" ++ f))) objNames with
  | none => Except.error ()
  | some keyed => Except.ok ((sortByKey keyed).map Prod.snd)

/-! ## Theorems about the FastAPI service -/

/-- Claim C1, counterexample: the claim that every route registered on the
app is the `POST /metric_sam3d/` handler is false — the app also registers
the `GET /health` route (`health_check`, lines 178–181), which is a
different route. -/
theorem appRoutes_not_single :
    healthRoute ∈ appRoutes ∧ healthRoute ≠ metricSam3dRoute ∧ appRoutes.length = 2 := by
  decide

/-- Claim C1, amended: the FastAPI service registers exactly two routes,
the `POST /metric_sam3d/` endpoint and the `GET /health` endpoint, and the
`/metric_sam3d/` endpoint is the only one whose handler shells out to the
pipeline script via a subprocess call. -/
theorem appRoutes_spec :
    appRoutes = [metricSam3dRoute, healthRoute] ∧
    metricSam3dRoute.method = "POST" ∧
    metricSam3dRoute.path = "/metric_sam3d/" ∧
    metricSam3dRoute.shellsOut = true ∧
    healthRoute.method = "GET" ∧
    healthRoute.path = "/health" ∧
    healthRoute.shellsOut = false ∧
    appRoutes.filter (fun r => r.shellsOut) = [metricSam3dRoute] := by
  decide

/-- Claim C2: whenever the `/metric_sam3d/` endpoint reaches the pipeline
(validation succeeded), it performs exactly one `subprocess.run` call — on
the pipeline script, with `timeout=1800` seconds — and if that call raises
`TimeoutExpired` the endpoint returns a JSON error response with status
code 504; moreover no request ever performs more than one subprocess
call. -/
theorem metric_sam3d_single_call (env : ApiEnv) (hv : env.valid = true) :
    (metric_sam3d_handler env).2 =
      [{ args := ["bash", PIPELINE_SCRIPT, "--device", env.device,
                  captureDirPath env, outputDirPath env],
         timeoutSeconds := 1800 }] ∧
    (env.outcome = RunOutcome.timeout →
      (metric_sam3d_handler env).1 =
        { status := 504, kind := RespKind.json,
          body := "Pipeline timed out after 30 minutes" }) ∧
    (∀ env2 : ApiEnv, (metric_sam3d_handler env2).2.length ≤ 1) := by
  refine ⟨?_, ?_, ?_⟩
  · unfold metric_sam3d_handler
    rw [hv]
    simp only [Bool.true_eq_false, if_false]
    cases env.outcome with
    | timeout => rfl
    | completed rc out err =>
        by_cases h : rc = 0 <;> by_cases h2 : env.resultsExist <;> simp [h, h2]
  · intro ht
    unfold metric_sam3d_handler
    rw [hv, ht]
    simp
  · intro env2
    unfold metric_sam3d_handler
    by_cases h : env2.valid = false
    · simp [h]
    · rw [if_neg h]
      cases env2.outcome with
      | timeout => simp
      | completed rc out err =>
          by_cases hrc : rc = 0 <;> by_cases h2 : env2.resultsExist <;> simp [hrc, h2]

/-- Concrete witness for `metric_sam3d_single_call`: a validated request
whose subprocess times out gets exactly one 1800-second subprocess call and
a 504 JSON response. -/
theorem metric_sam3d_single_call_witness :
    (metric_sam3d_handler
      { items := [], valid := true, vmessage := "", outcome := RunOutcome.timeout,
        resultsExist := false, device := "0", experimentId := "20250101_000000" }).2 =
      [{ args := ["bash", PIPELINE_SCRIPT, "--device", "0",
                  "20250101_000000/capture", "20250101_000000/output"],
         timeoutSeconds := 1800 }] ∧
    (metric_sam3d_handler
      { items := [], valid := true, vmessage := "", outcome := RunOutcome.timeout,
        resultsExist := false, device := "0", experimentId := "20250101_000000" }).1 =
      { status := 504, kind := RespKind.json,
        body := "Pipeline timed out after 30 minutes" } := by
  have h := metric_sam3d_single_call
    { items := [], valid := true, vmessage := "", outcome := RunOutcome.timeout,
      resultsExist := false, device := "0", experimentId := "20250101_000000" } rfl
  exact ⟨h.1, h.2.1 rfl⟩

/-- Claim C9, counterexample: when extraction yields more than one item, the
claim says all extracted items other than `capture.zip` are moved into the
capture directory; but an extracted item named `capture` is skipped by the
`if src != capture_dir` guard (line 111), so only the other items move. -/
theorem normalizeCapture_counterexample :
    normalizeCapture
      [{ name := "capture.zip", isDir := false },
       { name := "capture", isDir := true },
       { name := "rgb.png", isDir := false }] =
      NormalizeResult.gathered ["rgb.png"] ∧
    NormalizeResult.gathered ["rgb.png"] ≠ NormalizeResult.gathered ["capture", "rgb.png"] := by
  decide

/-- Claim C9, amended: after dropping `capture.zip` from the extracted
items, a single extracted directory becomes the capture directory (renamed
unless already named `capture`); otherwise all extracted items except any
item already located at the `capture` path are moved into the created
capture directory; and in both cases validation runs against the same fixed
capture directory path of the experiment. -/
theorem normalizeCapture_spec (items : List Item) :
    (∀ it, items.filter (fun i => i.name ≠ "capture.zip") = [it] → it.isDir = true →
      normalizeCapture items =
        (if it.name = "capture" then NormalizeResult.kept
         else NormalizeResult.renamed it.name)) ∧
    ((∀ it, items.filter (fun i => i.name ≠ "capture.zip") = [it] → it.isDir = false) →
      normalizeCapture items =
        NormalizeResult.gathered
          (((items.filter (fun i => i.name ≠ "capture.zip")).filter
              (fun i => i.name ≠ "capture")).map Item.name)) ∧
    (∀ env : ApiEnv, validatedPath env = env.experimentId ++ "/capture") := by
  refine ⟨?_, ?_, fun env => rfl⟩
  · intro it hfil hdir
    unfold normalizeCapture
    rw [hfil]
    simp [normalizeExtracted, hdir]
  · intro hall
    unfold normalizeCapture
    rcases hfil : items.filter (fun i => i.name ≠ "capture.zip") with _ | ⟨it, rest⟩
    · rw [hfil]
      simp [normalizeExtracted]
    · rcases rest with _ | ⟨y, ys⟩
      · have hd := hall it hfil
        rw [hfil]
        simp [normalizeExtracted, hd]
      · rw [hfil]
        simp [normalizeExtracted]

/-- Concrete witness for `normalizeCapture_spec`: a zip extracting to one
directory `mydata` gets renamed, and one extracting plain files gets its
files gathered into `capture/`. -/
theorem normalizeCapture_spec_witness :
    normalizeCapture [{ name := "capture.zip", isDir := false },
                      { name := "mydata", isDir := true }] =
      NormalizeResult.renamed "mydata" ∧
    normalizeCapture [{ name := "capture.zip", isDir := false },
                      { name := "rgb.png", isDir := false },
                      { name := "masks", isDir := true }] =
      NormalizeResult.gathered ["rgb.png", "masks"] := by
  constructor
  · have h := (normalizeCapture_spec
      [{ name := "capture.zip", isDir := false },
       { name := "mydata", isDir := true }]).1
      { name := "mydata", isDir := true } (by decide) rfl
    simpa using h
  · have hcomp : List.filter (fun i => i.name ≠ "capture.zip")
        [({ name := "capture.zip", isDir := false } : Item),
         { name := "rgb.png", isDir := false },
         { name := "masks", isDir := true }] =
        [({ name := "rgb.png", isDir := false } : Item),
         { name := "masks", isDir := true }] := by decide
    have hall : ∀ it : Item,
        List.filter (fun i => i.name ≠ "capture.zip")
          [({ name := "capture.zip", isDir := false } : Item),
           { name := "rgb.png", isDir := false },
           { name := "masks", isDir := true }] = [it] → it.isDir = false := by
      intro it hit
      rw [hcomp] at hit
      simp at hit
    have h := (normalizeCapture_spec
      [{ name := "capture.zip", isDir := false },
       { name := "rgb.png", isDir := false },
       { name := "masks", isDir := true }]).2.1 hall
    simpa using h

/-! ## Theorems about the preparation and visualization scripts -/

/-- Claim C8: the `--mode` argument ranges over `all`, `colored`, `pcd` and
`interactive`; mode `all` runs the three visualization paths in the order
interactive, pcd, colored; every other mode runs exactly its one path; and
every one of the three paths is reachable. -/
theorem dispatchMode_spec :
    modeChoices = ["all", "colored", "pcd", "interactive"] ∧
    dispatchMode "all" = [VisPath.interactive, VisPath.pcd, VisPath.colored] ∧
    dispatchMode "colored" = [VisPath.colored] ∧
    dispatchMode "pcd" = [VisPath.pcd] ∧
    dispatchMode "interactive" = [VisPath.interactive] ∧
    VisPath.interactive ∈ dispatchMode "all" ∧
    VisPath.pcd ∈ dispatchMode "all" ∧
    VisPath.colored ∈ dispatchMode "all" ∧
    (dispatchMode "colored").length = 1 ∧
    (dispatchMode "pcd").length = 1 ∧
    (dispatchMode "interactive").length = 1 := by
  decide

/-- Claim C6: when pyrender is unavailable (`import pyrender` raises
`ImportError`), `render_mesh` is total and writes exactly three files into
`videos/`: the placeholder `{id}_rgba.png` copied from the object's masked
RGB in `grasp_data/`, the placeholder `{id}_rgba_depth.png` copied from its
masked depth, and the camera intrinsics JSON `{id}_rgba.json`. -/
theorem render_mesh_fallback {α : Type} (oid : String) (width height : Nat)
    (K : List (List α)) :
    render_mesh (α := α) false oid width height K =
      [ { dir := "videos", name := oid ++ "_rgba.png",
          content := .copyOf ("grasp_data/" ++ oid ++ "_masked.png") },
        { dir := "videos", name := oid ++ "_rgba_depth.png",
          content := .copyOf ("grasp_data/" ++ oid ++ "_depth.png") },
        { dir := "videos", name := oid ++ "_rgba.json",
          content := .intrinsicsJson
            { width := width, height := height, intrinsic_matrix := K.flatten } } ] ∧
    (render_mesh (α := α) false oid width height K).map PrepFile.dir =
      ["videos", "videos", "videos"] := by
  constructor
  · simp [render_mesh, camKJsonOf]
  · simp [render_mesh]

/-- Claim C4: `convert_intrinsics` writes `cam_K.txt` as three lines, each
the space-separated string renderings of one matrix row in order, and
`cam_K.json` as an object with keys `width`, `height` and
`intrinsic_matrix`, the latter the row-major flattening of the matrix into
a list of 9 numbers. -/
theorem convert_intrinsics_spec {α : Type} (render : α → String)
    (k : List (List α)) (r0 r1 r2 : List α)
    (hk : k = [r0, r1, r2])
    (h0 : r0.length = 3) (h1 : r1.length = 3) (h2 : r2.length = 3)
    (width height : Nat) :
    camKTxtLines render k =
      [String.intercalate " " (r0.map render),
       String.intercalate " " (r1.map render),
       String.intercalate " " (r2.map render)] ∧
    (camKTxtLines render k).length = 3 ∧
    (camKJsonOf width height k).width = width ∧
    (camKJsonOf width height k).height = height ∧
    (camKJsonOf width height k).intrinsic_matrix = r0 ++ r1 ++ r2 ∧
    (camKJsonOf width height k).intrinsic_matrix.length = 9 := by
  subst hk
  refine ⟨by simp [camKTxtLines], by simp [camKTxtLines], rfl, rfl, ?_, ?_⟩
  · simp [camKJsonOf]
  · simp [camKJsonOf, h0, h1, h2]

/-- Concrete witness for `convert_intrinsics_spec`: the integer matrix
[[525,0,319],[0,525,239],[0,0,1]] serializes to three text lines and a
9-element row-major `intrinsic_matrix`. -/
theorem convert_intrinsics_spec_witness :
    camKTxtLines toString [[525, 0, 319], [0, 525, 239], [0, 0, 1]] =
      [String.intercalate " " ([525, 0, 319].map toString),
       String.intercalate " " ([0, 525, 239].map toString),
       String.intercalate " " ([0, 0, 1].map toString)] ∧
    (camKTxtLines toString [[525, 0, 319], [0, 525, 239], [0, 0, 1]]).length = 3 ∧
    (camKJsonOf 640 480 [[525, 0, 319], [0, 525, 239], [0, 0, 1]]).width = 640 ∧
    (camKJsonOf 640 480 [[525, 0, 319], [0, 525, 239], [0, 0, 1]]).height = 480 ∧
    (camKJsonOf 640 480 [[525, 0, 319], [0, 525, 239], [0, 0, 1]]).intrinsic_matrix =
      [525, 0, 319] ++ [0, 525, 239] ++ [0, 0, 1] ∧
    (camKJsonOf 640 480 [[(525 : Nat), 0, 319], [0, 525, 239], [0, 0, 1]]).intrinsic_matrix.length
      = 9 :=
  convert_intrinsics_spec toString [[525, 0, 319], [0, 525, 239], [0, 0, 1]]
    [525, 0, 319] [0, 525, 239] [0, 0, 1] rfl rfl rfl rfl 640 480

/-- Claim C3: the masked image written by `generate_meshes` has, at every
pixel, an alpha channel equal to the mask's grayscale value at that pixel
and RGB channels equal to the original image's RGB channels unchanged. -/
theorem maskedImage_pixel (img : List (List RGB)) (mask : ImageG) (i j : Nat)
    (hi1 : i < img.length) (hi2 : i < mask.length)
    (hj1 : j < img[i].length) (hj2 : j < mask[i].length) :
    ((maskedImage img mask)[i]?.bind (fun row => row[j]?)) =
      some { r := img[i][j].r, g := img[i][j].g, b := img[i][j].b, a := mask[i][j] } := by
  have e1 : img[i]? = some img[i] := List.getElem?_eq_getElem hi1
  have e2 : mask[i]? = some mask[i] := List.getElem?_eq_getElem hi2
  have e3 : img[i][j]? = some img[i][j] := List.getElem?_eq_getElem hj1
  have e4 : mask[i][j]? = some mask[i][j] := List.getElem?_eq_getElem hj2
  simp [maskedImage, putalpha, List.getElem?_zipWith', List.getElem?_map,
    e1, e2, e3, e4, convertRGBA]

/-- Concrete witness for `maskedImage_pixel`: a 1×1 image with pixel
(10,20,30) and mask value 7 yields the RGBA pixel (10,20,30,7). -/
theorem maskedImage_pixel_witness :
    ((maskedImage [[{ r := 10, g := 20, b := 30 }]] [[7]])[0]?.bind
        (fun row => row[0]?)) =
      some { r := 10, g := 20, b := 30, a := 7 } := by
  have h := maskedImage_pixel [[{ r := 10, g := 20, b := 30 }]] [[7]] 0 0
    (by decide) (by decide) (by decide) (by decide)
  simpa using h

/-- Claim C5: for an object id whose mesh `{id}.obj` and mask
`mask_{id}.png` exist, the preparation step writes `grasp_data/{id}_mask.png`
(the mask), `grasp_data/{id}_masked.png` (scene RGB zeroed where the mask is
0, unchanged elsewhere), `grasp_data/{id}_depth.png` (scene depth zeroed
where the mask is 0, unchanged elsewhere), copies the mesh into `meshes/` as
`{id}_rgba.obj`, and copies the scene RGB into `images/` as the placeholder
`{id}_rgba.png`. -/
theorem prepare_layout_spec {α : Type} (pa : Bool) (oid : String)
    (rgb : List (List RGB)) (depth : ImageG) (mask : ImageG)
    (width height : Nat) (K : List (List α)) :
    (∃ files, processObject (α := α) pa oid true true rgb depth mask width height K =
        some files ∧
      ({ dir := "grasp_data", name := oid ++ "_mask.png",
         content := .gray mask } : PrepFile α) ∈ files ∧
      ({ dir := "grasp_data", name := oid ++ "_masked.png",
         content := .rgb (maskOutRGB rgb mask) } : PrepFile α) ∈ files ∧
      ({ dir := "grasp_data", name := oid ++ "_depth.png",
         content := .gray (maskOutDepth depth mask) } : PrepFile α) ∈ files ∧
      ({ dir := "meshes", name := oid ++ "_rgba.obj",
         content := .copyOf (oid ++ ".obj") } : PrepFile α) ∈ files ∧
      ({ dir := "images", name := oid ++ "_rgba.png",
         content := .copyOf "rgb.png" } : PrepFile α) ∈ files) ∧
    (∀ i j (hi1 : i < rgb.length) (hi2 : i < mask.length)
        (hj1 : j < rgb[i].length) (hj2 : j < mask[i].length),
      ((maskOutRGB rgb mask)[i]?.bind (fun row => row[j]?)) =
        some (if mask[i][j] = 0 then { r := 0, g := 0, b := 0 } else rgb[i][j])) ∧
    (∀ i j (hi1 : i < depth.length) (hi2 : i < mask.length)
        (hj1 : j < depth[i].length) (hj2 : j < mask[i].length),
      ((maskOutDepth depth mask)[i]?.bind (fun row => row[j]?)) =
        some (if mask[i][j] = 0 then 0 else depth[i][j])) := by
  refine ⟨?_, ?_, ?_⟩
  · refine ⟨prepare_grasp_data oid rgb depth mask ++
      ({ dir := "meshes", name := oid ++ "_rgba.obj",
         content := PrepContent.copyOf (oid ++ ".obj") } ::
       render_mesh pa oid width height K ++
       [{ dir := "images", name := oid ++ "_rgba.png",
          content := PrepContent.copyOf "rgb.png" }]), ?_, ?_, ?_, ?_, ?_, ?_⟩
    · simp [processObject, prepare_mesh_outputs]
    · simp [prepare_grasp_data]
    · simp [prepare_grasp_data]
    · simp [prepare_grasp_data]
    · simp
    · simp
  · intro i j hi1 hi2 hj1 hj2
    have e1 : rgb[i]? = some rgb[i] := List.getElem?_eq_getElem hi1
    have e2 : mask[i]? = some mask[i] := List.getElem?_eq_getElem hi2
    have e3 : rgb[i][j]? = some rgb[i][j] := List.getElem?_eq_getElem hj1
    have e4 : mask[i][j]? = some mask[i][j] := List.getElem?_eq_getElem hj2
    simp [maskOutRGB, List.getElem?_zipWith', e1, e2, e3, e4]
  · intro i j hi1 hi2 hj1 hj2
    have e1 : depth[i]? = some depth[i] := List.getElem?_eq_getElem hi1
    have e2 : mask[i]? = some mask[i] := List.getElem?_eq_getElem hi2
    have e3 : depth[i][j]? = some depth[i][j] := List.getElem?_eq_getElem hj1
    have e4 : mask[i][j]? = some mask[i][j] := List.getElem?_eq_getElem hj2
    simp [maskOutDepth, List.getElem?_zipWith', e1, e2, e3, e4]

/-- Concrete witness for `prepare_layout_spec`: with a 1×1 scene whose mask
value is 0, the masked RGB pixel is black and the masked depth pixel is 0,
and the per-object files are written. -/
theorem prepare_layout_spec_witness :
    (∃ files,
      processObject (α := Nat) false "0" true true
        [[{ r := 5, g := 6, b := 7 }]] [[9]] [[0]] 1 1 [[1]] = some files ∧
      ({ dir := "meshes", name := "0" ++ "_rgba.obj",
         content := .copyOf ("0" ++ ".obj") } : PrepFile Nat) ∈ files) ∧
    ((maskOutRGB [[{ r := 5, g := 6, b := 7 }]] [[0]])[0]?.bind
        (fun row => row[0]?)) = some { r := 0, g := 0, b := 0 } ∧
    ((maskOutDepth [[9]] [[0]])[0]?.bind (fun row => row[0]?)) = some 0 := by
  have h := prepare_layout_spec (α := Nat) false "0"
    [[{ r := 5, g := 6, b := 7 }]] [[9]] [[0]] 1 1 [[1]]
  refine ⟨?_, ?_, ?_⟩
  · obtain ⟨files, hfiles, _, _, _, hmesh, _⟩ := h.1
    exact ⟨files, hfiles, hmesh⟩
  · have hp := h.2.1 0 0 (by decide) (by decide) (by decide) (by decide)
    simpa using hp
  · have hp := h.2.2 0 0 (by decide) (by decide) (by decide) (by decide)
    simpa using hp

/-- Claim C7: `generate_meshes` makes one inference call per mask, each
with seed 42 and with the saved masked image as the mask argument, and for
every mask index `i` writes `masked_image_{i}.png`, `{i}.ply` and
`{i}.obj` into the output folder. -/
theorem generate_meshes_spec (masks : List String) :
    (generate_meshes masks).2.length = masks.length ∧
    (∀ i, i < masks.length →
      (generate_meshes masks).2[i]? =
        some { imagePath := "rgb.png",
               maskPath := "masked_image_" ++ toString i ++ ".png", seed := 42 } ∧
      ("masked_image_" ++ toString i ++ ".png") ∈ (generate_meshes masks).1 ∧
      (toString i ++ ".ply") ∈ (generate_meshes masks).1 ∧
      (toString i ++ ".obj") ∈ (generate_meshes masks).1) := by
  constructor
  · simp [generate_meshes]
  · intro i hi
    have hm : (i, masks[i]) ∈ masks.enum := by
      rw [List.mem_enum_iff_getElem?]
      simp [List.getElem?_eq_getElem hi]
    refine ⟨?_, ?_, ?_, ?_⟩
    · simp [generate_meshes, List.getElem?_map, List.getElem?_enum,
        List.getElem?_eq_getElem hi]
    · simp only [generate_meshes]
      exact List.mem_flatMap.2 ⟨(i, masks[i]), hm, by simp [outputsForMask]⟩
    · simp only [generate_meshes]
      exact List.mem_flatMap.2 ⟨(i, masks[i]), hm, by simp [outputsForMask]⟩
    · simp only [generate_meshes]
      exact List.mem_flatMap.2 ⟨(i, masks[i]), hm, by simp [outputsForMask]⟩

/-- Concrete witness for `generate_meshes_spec`: with one mask, one seed-42
inference call is made and the three index-0 output files are written. -/
theorem generate_meshes_spec_witness :
    (generate_meshes ["m.png"]).2.length = 1 ∧
    (generate_meshes ["m.png"]).2[0]? =
      some { imagePath := "rgb.png", maskPath := "masked_image_0.png", seed := 42 } ∧
    "masked_image_0.png" ∈ (generate_meshes ["m.png"]).1 ∧
    "0.ply" ∈ (generate_meshes ["m.png"]).1 ∧
    "0.obj" ∈ (generate_meshes ["m.png"]).1 := by
  have h := generate_meshes_spec ["m.png"]
  have h0 := h.2 0 (by decide)
  exact ⟨h.1, h0.1, h0.2.1, h0.2.2.1, h0.2.2.2⟩

/-! ## Sorting lemmas for `load_obj_files` -/

theorem mapKeys_eq_map {α β : Type _} (f : α → Option β) (g : α → β) :
    ∀ l : List α, (∀ x ∈ l, f x = some (g x)) → mapKeys f l = some (l.map g)
  | [], _ => rfl
  | x :: xs, h => by
      have hx := h x (List.mem_cons_self x xs)
      have hxs := mapKeys_eq_map f g xs (fun y hy => h y (List.mem_cons_of_mem x hy))
      simp [mapKeys, hx, hxs]

theorem mapKeys_eq_none {α β : Type _} (f : α → Option β) :
    ∀ l : List α, (∃ x ∈ l, f x = none) → mapKeys f l = none
  | [], h => by
      rcases h with ⟨x, hx, _⟩
      cases hx
  | x :: xs, h => by
      rcases h with ⟨y, hy, hfy⟩
      rcases List.mem_cons.1 hy with rfl | hy2
      · cases hxs : mapKeys f xs <;> simp [mapKeys, hfy, hxs]
      · have ht := mapKeys_eq_none f xs ⟨y, hy2, hfy⟩
        cases hfx : f x <;> simp [mapKeys, ht, hfx]

theorem insertByKey_perm (x : Int × String) :
    ∀ l, List.Perm (insertByKey x l) (x :: l)
  | [] => List.Perm.refl _
  | y :: ys => by
      by_cases h : x.1 < y.1
      · simp [insertByKey, h]
      · simp only [insertByKey, if_neg h]
        exact ((insertByKey_perm x ys).cons y).trans (List.Perm.swap x y ys)

theorem sortByKey_perm : ∀ l, List.Perm (sortByKey l) l
  | [] => List.Perm.refl _
  | x :: xs => by
      have hstep : sortByKey (x :: xs) = insertByKey x (sortByKey xs) := rfl
      rw [hstep]
      exact (insertByKey_perm x _).trans ((sortByKey_perm xs).cons x)

theorem pairwise_insertByKey (x : Int × String) :
    ∀ l : List (Int × String), l.Pairwise (fun a b => a.1 ≤ b.1) →
      (insertByKey x l).Pairwise (fun a b => a.1 ≤ b.1)
  | [], _ => by simp [insertByKey]
  | y :: ys, h => by
      rcases List.pairwise_cons.1 h with ⟨hy, hys⟩
      by_cases hlt : x.1 < y.1
      · simp only [insertByKey, if_pos hlt]
        refine List.pairwise_cons.2 ⟨?_, h⟩
        intro z hz
        rcases List.mem_cons.1 hz with rfl | hz2
        · exact le_of_lt hlt
        · exact le_trans (le_of_lt hlt) (hy z hz2)
      · simp only [insertByKey, if_neg hlt]
        refine List.pairwise_cons.2 ⟨?_, pairwise_insertByKey x ys hys⟩
        intro z hz
        have hz2 := (insertByKey_perm x ys).mem_iff.1 hz
        rcases List.mem_cons.1 hz2 with rfl | hz3
        · exact not_lt.1 hlt
        · exact hy z hz3

theorem pairwise_sortByKey : ∀ l, (sortByKey l).Pairwise (fun a b => a.1 ≤ b.1)
  | [] => by simp [sortByKey]
  | x :: xs => by
      have hstep : sortByKey (x :: xs) = insertByKey x (sortByKey xs) := rfl
      rw [hstep]
      exact pairwise_insertByKey x _ (pairwise_sortByKey xs)

/-- Behaviour of `pyInt` on the edge cases of CPython's `int()`: interior
underscores between digits and surrounding whitespace are accepted, as are
non-ASCII decimal digits (here Thai `๓` and the fullwidth `１２`), while
doubled, trailing or leading underscores, whitespace after the sign, hex
notation, the empty string, and an underscore after the sign all raise
`ValueError`. Each line agrees with the corresponding CPython result. -/
theorem pyInt_matches_python :
    pyInt "1_0" = some 10 ∧ pyInt " 1" = some 1 ∧ pyInt "+1" = some 1 ∧
    pyInt "-3" = some (-3) ∧ pyInt "07" = some 7 ∧ pyInt "1_0_0" = some 100 ∧
    pyInt "๓" = some 3 ∧ pyInt "１２" = some 12 ∧
    pyInt "1__0" = none ∧ pyInt "1_" = none ∧ pyInt "_1" = none ∧
    pyInt "+ 1" = none ∧ pyInt "0x10" = none ∧ pyInt "" = none ∧
    pyInt "-_1" = none := by
  decide

/-- Claim C10: when every `.obj` name's stem parses as a decimal integer,
`load_obj_files` raises no exception and returns exactly the `.obj` paths
in ascending order of that integer (the returned list is, after decoration
with the parsed keys, a permutation of the `.obj` paths that is pairwise
sorted by key); when some `.obj` stem does not parse, it raises
`ValueError`. -/
theorem load_obj_files_spec (folder : String) (listing : List String) :
    ((∀ f ∈ listing.filter (fun f => pyEndsWith f ".obj"),
        (pyInt (stemOf f)).isSome = true) →
      ∃ keyed : List (Int × String),
        load_obj_files folder listing = Except.ok (keyed.map Prod.snd) ∧
        List.Perm keyed
          ((listing.filter (fun f => pyEndsWith f ".obj")).map
            (fun f => ((pyInt (stemOf f)).getD 0, folder ++ "/" ++ f))) ∧
        keyed.Pairwise (fun a b => a.1 ≤ b.1)) ∧
    ((∃ f ∈ listing.filter (fun f => pyEndsWith f ".obj"), pyInt (stemOf f) = none) →
      load_obj_files folder listing = Except.error ()) := by
  constructor
  · intro hall
    have hmap : mapKeys (fun f => (pyInt (stemOf f)).map (fun k => (k, folder ++ "/" ++ f)))
        (listing.filter (fun f => pyEndsWith f ".obj")) =
        some ((listing.filter (fun f => pyEndsWith f ".obj")).map
          (fun f => ((pyInt (stemOf f)).getD 0, folder ++ "/" ++ f))) := by
      apply mapKeys_eq_map
      intro x hx
      obtain ⟨v, hv⟩ := Option.isSome_iff_exists.1 (hall x hx)
      rw [hv]
      simp
    refine ⟨sortByKey ((listing.filter (fun f => pyEndsWith f ".obj")).map
        (fun f => ((pyInt (stemOf f)).getD 0, folder ++ "/" ++ f))), ?_, ?_, ?_⟩
    · simp only [load_obj_files]
      rw [hmap]
    · exact sortByKey_perm _
    · exact pairwise_sortByKey _
  · intro hex
    obtain ⟨f, hf, hnone⟩ := hex
    have hmap := mapKeys_eq_none
      (fun g => (pyInt (stemOf g)).map (fun k => (k, folder ++ "/" ++ g)))
      (listing.filter (fun g => pyEndsWith g ".obj")) ⟨f, hf, by simp [hnone]⟩
    simp only [load_obj_files]
    rw [hmap]

/-- Concrete witness for `load_obj_files_spec`: a listing with numeric
stems is returned sorted, and a listing with a non-numeric `.obj` stem
raises `ValueError`. -/
theorem load_obj_files_spec_witness :
    (∃ keyed : List (Int × String),
      load_obj_files "out" ["1.obj", "0.obj", "scene.ply"] = Except.ok (keyed.map Prod.snd) ∧
      List.Perm keyed
        ((["1.obj", "0.obj", "scene.ply"].filter (fun f => pyEndsWith f ".obj")).map
          (fun f => ((pyInt (stemOf f)).getD 0, "out" ++ "/" ++ f))) ∧
      keyed.Pairwise (fun a b => a.1 ≤ b.1)) ∧
    load_obj_files "out" ["1.obj", "x.obj"] = Except.error () := by
  constructor
  · exact (load_obj_files_spec "out" ["1.obj", "0.obj", "scene.ply"]).1 (by decide)
  · exact (load_obj_files_spec "out" ["1.obj", "x.obj"]).2 ⟨"x.obj", by decide, by decide⟩

end MetricSam3d
